import Mathlib

/-!
# Verification of the Jamaah.in document-intake pipeline

Shallow embedding of the core pipeline of `backend/app/services/`:
content-addressed LRU cache (`cache.py`), date/name sanitization and fuzzy
record merging (`cleaner.py`), document-type classification (`parser.py`),
MRZ line repair (`parsers/passport_parser.py`), NIK extraction
(`parsers/ktp_parser.py`), field validation (`validators.py`) and the OCR
dispatch/retry orchestration (`document_processor.py`, `mappers.py`).

Python strings are modelled as `List Char` (wrapped in `String` at the
API boundary); machine integers do not occur.  Regular expressions used by
the source are compiled by hand into scanners that reproduce Python `re`
semantics (leftmost search, greedy quantifiers) for the specific patterns
involved; character classes in each pattern are pairwise disjoint from
their neighbours, so greedy maximal-munch scanning is exact.
-/

namespace Jamaah

/-- ASCII whitespace, as recognized by Python `str.strip()` and regex `\s`. -/
def isPySpace (c : Char) : Bool :=
  c = ' ' || c = '\t' || c = '\n' || c = '\r' || c = '\x0b' || c = '\x0c'

/-- Python `str.strip()` (default whitespace). -/
def pyStrip (s : List Char) : List Char :=
  ((s.dropWhile isPySpace).reverse.dropWhile isPySpace).reverse

/-- Python `str.upper()` restricted to ASCII (all data handled is ASCII). -/
def pyUpper (s : List Char) : List Char := s.map Char.toUpper

/-- `str.upper()` on `String`. -/
def pyUpperS (s : String) : String := String.mk (pyUpper s.toList)

/-- Core of Python `str.replace`: scan left to right, replace each
non-overlapping occurrence of `old`, continue after the replacement.
`fuel` bounds recursion; passing `s.length` with `old ≠ []` is exact. -/
def replaceCore (old new : List Char) : List Char → Nat → List Char
  | s, 0 => s
  | [], _ => []
  | s@(c :: rest), Nat.succ fuel =>
    if old.isPrefixOf s then new ++ replaceCore old new (s.drop old.length) fuel
    else c :: replaceCore old new rest fuel

/-- Python `s.replace(old, new)` (the source never calls it with empty `old`;
that degenerate case is modelled as the identity). -/
def pyReplace (s old new : List Char) : List Char :=
  if old = [] then s else replaceCore old new s s.length

/-- Python `needle in hay` (contiguous substring test). -/
def containsSub (needle : List Char) : List Char → Bool
  | [] => needle.isPrefixOf []
  | s@(_ :: t) => needle.isPrefixOf s || containsSub needle t

/-- Substring test on `String`s: Python `sub in hay`. -/
def strContains (hay sub : String) : Bool := containsSub sub.toList hay.toList

/-- Numeric value of a digit string (Python `int`). -/
def digitsToNat (s : List Char) : Nat := s.foldl (fun a c => a * 10 + (c.toNat - 48)) 0

/-- Decimal rendering of a `Nat` (Python `str`). -/
def natRepr (n : Nat) : List Char := (Nat.repr n).toList

/-- Python `str.zfill(2)`. -/
def zfill2 (s : List Char) : List Char := List.replicate (2 - s.length) '0' ++ s

/-!
## `services/cache.py` — `OCRCache`

The `OrderedDict` is a front-to-back list, front = least recently used.
`time.time()` is passed in explicitly as `now` (natural-number seconds).
-/

/-- State of `OCRCache` (`cache.py`): insertion-ordered entries
`(key, data, timestamp)`, capacity, TTL and hit/miss counters. -/
structure OCRCache (α : Type) where
  cache : List (String × α × Nat)
  maxSize : Nat
  ttl : Nat
  hits : Nat
  misses : Nat

/-- `OCRCache.get`: on a fresh hit, move the entry to the back
(most-recently-used) and count a hit; an expired entry is deleted and
counted as a miss; an absent key is a miss. -/
def cacheGet {α : Type} (c : OCRCache α) (now : Nat) (k : String) :
    Option α × OCRCache α :=
  match c.cache.find? (fun e => e.1 == k) with
  | some e =>
    if now - e.2.2 < c.ttl then
      (some e.2.1,
       { c with cache := c.cache.filter (fun x => x.1 != k) ++ [e],
                hits := c.hits + 1 })
    else
      (none, { c with cache := c.cache.filter (fun x => x.1 != k),
                      misses := c.misses + 1 })
  | none => (none, { c with misses := c.misses + 1 })

/-- The eviction loop of `OCRCache.put`: `while len >= max_size: popitem(last=False)`
pops from the front until the length is `maxSize - 1`. -/
def evictOverflow {α : Type} (l : List (String × α × Nat)) (maxSize : Nat) :
    List (String × α × Nat) :=
  if l.length ≥ maxSize then l.drop (l.length + 1 - maxSize) else l

/-- `OCRCache.put`: evict from the front while at capacity, then insert
(an existing key keeps its position, as `OrderedDict` assignment does). -/
def cachePut {α : Type} (c : OCRCache α) (now : Nat) (k : String) (d : α) :
    OCRCache α :=
  let l := evictOverflow c.cache c.maxSize
  let l2 := if l.any (fun e => e.1 == k)
            then l.map (fun e => if e.1 == k then (k, d, now) else e)
            else l ++ [(k, d, now)]
  { c with cache := l2 }

/-- Key-presence test on the cache state. -/
def containsKey {α : Type} (c : OCRCache α) (k : String) : Bool :=
  c.cache.any (fun e => e.1 == k)

/-!
## `services/cleaner.py` — `standardize_date`

The source first uppercases and strips, then applies single-character OCR
typo replacements, then tries a textual-month pattern
`(\d{1,2})[\s\-]+([A-Z]{3,})[\s\-]+(\d{4})`, else extracts all digit runs.
-/

/-- The OCR-typo replacement table of `standardize_date`, in source order
(each entry is a single-character `str.replace`). -/
def dateReplacements : List (Char × Char) :=
  [('l', '1'), ('I', '1'), ('O', '0'), ('o', '0'),
   ('?', '7'), (':', '-'), ('.', '-'), (',', '-'),
   ('|', '1'), ('_', '-')]

/-- Apply the typo replacements (single-char replace = character map). -/
def dateTypoFix (s : List Char) : List Char :=
  dateReplacements.foldl
    (fun acc p => acc.map (fun c => if c = p.1 then p.2 else c)) s

/-- The Indonesian month table of `standardize_date`, in source order. -/
def month_map : List (String × String) :=
  [("JAN", "01"), ("FEB", "02"), ("PEB", "02"), ("MAR", "03"),
   ("APR", "04"), ("MEI", "05"), ("MAY", "05"), ("JUN", "06"),
   ("JUL", "07"), ("AGU", "08"), ("AUG", "08"), ("SEP", "09"),
   ("OKT", "10"), ("OCT", "10"), ("NOV", "11"), ("DES", "12"), ("DEC", "12")]

/-- Separator class `[\s\-]` of the textual-date pattern. -/
def isDateSep (c : Char) : Bool := isPySpace c || c = '-'

/-- Attempt the pattern `(\d{1,2})[\s\-]+([A-Z]{3,})[\s\-]+(\d{4})` anchored
at the start of `s`, returning the three captured groups.  The digit, separator
and letter classes are pairwise disjoint, so Python's greedy backtracking
reduces to maximal-munch runs; a leading digit run of length ≥ 3 can never
match `\d{1,2}` followed by a separator. -/
def matchTextDateAt (s : List Char) : Option (List Char × List Char × List Char) :=
  let ds := s.takeWhile Char.isDigit
  if ds.length = 0 || ds.length > 2 then none else
  let r1 := s.dropWhile Char.isDigit
  if (r1.takeWhile isDateSep).length = 0 then none else
  let r2 := r1.dropWhile isDateSep
  let ms := r2.takeWhile Char.isUpper
  if ms.length < 3 then none else
  let r3 := r2.dropWhile Char.isUpper
  if (r3.takeWhile isDateSep).length = 0 then none else
  let r4 := r3.dropWhile isDateSep
  let ys := r4.takeWhile Char.isDigit
  if ys.length < 4 then none else some (ds, ms, ys.take 4)

/-- `re.search` of the textual-date pattern: leftmost matching start. -/
def searchTextDate : List Char → Option (List Char × List Char × List Char)
  | [] => none
  | s@(_ :: t) =>
    match matchTextDateAt s with
    | some r => some r
    | none => searchTextDate t

/-- `re.findall(r'\d+', text)`: the maximal digit runs, left to right. -/
def digitRuns (s : List Char) : List (List Char) :=
  let step := fun (st : List (List Char) × List Char) (c : Char) =>
    if c.isDigit then (st.1, c :: st.2)
    else if st.2 = [] then (st.1, []) else (st.2.reverse :: st.1, [])
  let fin := s.foldl step ([], [])
  (if fin.2 = [] then fin.1 else fin.2.reverse :: fin.1).reverse

/-- The numeric branch (Strategy B) of `standardize_date`: find the first
4-digit token as the year, drop every token equal to it, and resolve
day/month from the first two remaining tokens. -/
def dateStrategyB (text : List Char) : Option String :=
  let nums := digitRuns text
  if nums.length < 3 then none else
  match nums.find? (fun n => n.length == 4) with
  | none => none
  | some year =>
    let others := nums.filter (fun n => n != year)
    if others.length < 2 then none else
    match others with
    | n1s :: n2s :: _ =>
      let n1 := digitsToNat n1s
      let n2 := digitsToNat n2s
      let yv := digitsToNat year
      if ¬(1900 ≤ yv ∧ yv ≤ 2040) then none else
      let md : Nat × Nat :=
        if n2 > 12 ∧ n1 ≤ 12 then (n1, n2)
        else if n1 > 12 ∧ n2 ≤ 12 then (n2, n1)
        else (n2, n1)
      if 1 ≤ md.1 ∧ md.1 ≤ 12 ∧ 1 ≤ md.2 ∧ md.2 ≤ 31 then
        some (String.mk (year ++ '-' :: zfill2 (natRepr md.1) ++
                         '-' :: zfill2 (natRepr md.2)))
      else none
    | _ => none

/-- `cleaner.standardize_date`: upper-case and strip, apply typo
replacements, try the textual-month pattern (falling through to the numeric
branch when the matched month name is not in the table), else the numeric
branch.  A `None`/empty input yields `none`. -/
def standardize_date (raw_text : String) : Option String :=
  if raw_text = "" then none else
  let text := dateTypoFix (pyStrip (pyUpper raw_text.toList))
  match searchTextDate text with
  | some (d, mstr, y) =>
    match month_map.find? (fun kv => containsSub kv.1.toList mstr) with
    | some kv => some (String.mk (y ++ '-' :: kv.2.toList ++ '-' :: zfill2 d))
    | none => dateStrategyB text
  | none => dateStrategyB text

/-!
## `services/parser.py` — `detect_document_type`
-/

/-- Visa keyword set of `detect_document_type`. -/
def visa_keywords : List String :=
  ["VISA", "KINGDOM OF SAUDI", "KSA", "MOFA", "KEDUTAAN", "EMBASSY", "R.S.A"]

/-- KTP keyword set of `detect_document_type`. -/
def ktp_keywords : List String :=
  ["PROVINSI", "KABUPATEN", "KECAMATAN", "KELURAHAN",
   "NIK", "RT/RW", "BERLAKU HINGGA", "KARTU TANDA PENDUDUK"]

/-- Passport keyword set of `detect_document_type`. -/
def passport_keywords : List String :=
  ["PASSPORT", "PASPOR", "DATE OF ISSUE", "DATE OF EXPIRY",
   "REPUBLIC OF INDONESIA", "TANGGAL HABIS BERLAKU", "IMIGRASI"]

/-- `sum(1 for kw in kws if kw in t)`. -/
def countKw (t : String) (kws : List String) : Nat :=
  (kws.filter (fun k => strContains t k)).length

/-- `re.search(r'\d{16}', s)` as existence: 16 consecutive digits somewhere. -/
def hasDigitRun16 : List Char → Bool
  | [] => false
  | s@(_ :: t) =>
    ((s.take 16).length = 16 && (s.take 16).all Char.isDigit) || hasDigitRun16 t

/-- `re.search(r'[A-Z]\d{7}', s)` as existence. -/
def hasLetter7Digits : List Char → Bool
  | [] => false
  | c :: t =>
    (c.isUpper && (t.take 7).length = 7 && (t.take 7).all Char.isDigit) ||
      hasLetter7Digits t

/-- One anchored attempt of `[A-Z]{2}<[A-Z]+<<`: two capitals, a chevron, a
(maximal, the classes being disjoint) nonempty capital run, then `<<`. -/
def mrzSigAt (s : List Char) : Bool :=
  match s with
  | a :: b :: c :: rest =>
    a.isUpper && b.isUpper && c = '<' &&
      (let run := rest.takeWhile Char.isUpper
       run.length ≥ 1 && (rest.drop run.length).take 2 = ['<', '<'])
  | _ => false

/-- `re.search(r'[A-Z]{2}<[A-Z]+<<', s)` as existence. -/
def hasMrzSig : List Char → Bool
  | [] => false
  | s@(_ :: t) => mrzSigAt s || hasMrzSig t

/-- `parser.detect_document_type`: priority-ordered keyword heuristic. -/
def detect_document_type (text : String) : String :=
  let tu := pyUpperS text
  if strContains tu "VISA" &&
     (strContains tu "SAUDI" || strContains tu "NUMBER" || strContains tu "NO")
  then "VISA"
  else if countKw tu visa_keywords ≥ 2 then "VISA"
  else if countKw tu ktp_keywords ≥ 2 then "KTP"
  else if countKw tu passport_keywords ≥ 2 then "PASSPORT"
  else if strContains tu "P<" || strContains tu "P<IDN" then "PASSPORT"
  else if strContains tu "V<" || strContains tu "V<IDN" then "VISA"
  else if strContains text "<<<" || hasMrzSig tu.toList then
    (if strContains tu "SAUDI" || strContains tu "ARABIA" then "VISA"
     else "PASSPORT")
  else if hasDigitRun16 text.toList then "KTP"
  else if hasLetter7Digits text.toList then "PASSPORT"
  else "UNKNOWN"

/-!
## `services/parsers/passport_parser.py` — `clean_mrz_line`
-/

/-- Bracket-like characters repaired to `<` in pass 1, in source order. -/
def bracketReplacements : List (Char × Char) :=
  [('(', '<'), (')', '<'), ('[', '<'), (']', '<'), ('{', '<'), ('}', '<'),
   ('«', '<'), ('»', '<'), ('£', '<'), ('¢', '<'), ('|', '<')]

/-- Pass 1: single-character bracket replacements (a character map). -/
def mrzPass1 (s : List Char) : List Char :=
  bracketReplacements.foldl
    (fun acc p => acc.map (fun c => if c = p.1 then p.2 else c)) s

/-- The chevron-lookalike letters of pass 2 and pass 3. -/
def chevron_lookalikes : List Char := ['K', 'C', 'E', 'R', 'X', 'V', 'Y']

/-- One iteration of the pass-2 loop body: for each lookalike `c`, replace
`<c<` with `<<<` and `<cc<` with `<<<<`; then replace `K<`, `<K`, `C<`, `<C`
with double chevrons. -/
def mrzPass2Once (s : List Char) : List Char :=
  let s := chevron_lookalikes.foldl
    (fun acc c =>
      pyReplace (pyReplace acc ['<', c, '<'] ['<', '<', '<'])
        ['<', c, c, '<'] ['<', '<', '<', '<']) s
  let s := pyReplace s ['K', '<'] ['<', '<']
  let s := pyReplace s ['<', 'K'] ['<', '<']
  let s := pyReplace s ['C', '<'] ['<', '<']
  pyReplace s ['<', 'C'] ['<', '<']

/-- Pass 2: five iterations of the loop body (`for _ in range(5)`). -/
def mrzPass2 (s : List Char) : List Char :=
  mrzPass2Once (mrzPass2Once (mrzPass2Once (mrzPass2Once (mrzPass2Once s))))

/-- Membership in the `[KCERXVY]` class of the pass-3 pattern. -/
def chevClass (c : Char) : Bool := chevron_lookalikes.contains c

/-- Leftmost start index of a match of `(<{3,})([KCERXVY]+)$`: a run of at
least three chevrons followed by a nonempty lookalike run extending to the
end of the string (the two classes are disjoint, so greedy matching is a
maximal chevron run). -/
def trailingIdx : List Char → Nat → Option Nat
  | [], _ => none
  | s@(_ :: t), i =>
    let run := s.takeWhile (fun c => c = '<')
    let rest := s.drop run.length
    if run.length ≥ 3 && rest ≠ [] && rest.all chevClass then some i
    else trailingIdx t (i + 1)

/-- Pass 3: replace a trailing `<<<…lookalikes` tail by all chevrons,
keeping the overall length. -/
def mrzPass3 (s : List Char) : List Char :=
  match trailingIdx s 0 with
  | some i => s.take i ++ List.replicate (s.length - i) '<'
  | none => s

/-- Pass 4: `re.sub(r'[^A-Z0-9<]', '', s)` — keep only `A-Z`, `0-9`, `<`. -/
def mrzPass4 (s : List Char) : List Char :=
  s.filter (fun c => c.isUpper || c.isDigit || c = '<')

/-- Pass 5 of the source replaces every maximal `<{3,}` run by a run of the
same length (`lambda m: '<' * len(m.group())`), i.e. it is the identity. -/
def mrzPass5 (s : List Char) : List Char := s

/-- `passport_parser.clean_mrz_line`. -/
def clean_mrz_line (line : String) : String :=
  if line = "" then "" else
  String.mk (mrzPass5 (mrzPass4 (mrzPass3 (mrzPass2 (mrzPass1
    (pyUpper line.toList))))))

/-!
## `services/parsers/common.py` — `fix_ocr_digits`
and `services/parsers/ktp_parser.py` — `extract_nik`
-/

/-- The digit-lookalike replacement table of `fix_ocr_digits`, source order. -/
def ocrDigitReplacements : List (Char × Char) :=
  [('O', '0'), ('o', '0'), ('D', '0'), ('Q', '0'),
   ('I', '1'), ('l', '1'), ('L', '1'), ('|', '1'), ('i', '1'),
   ('?', '7'), ('T', '7'),
   ('S', '5'), ('s', '5'),
   ('B', '8'),
   ('G', '6'), ('g', '9'),
   ('A', '4'),
   ('Z', '2'), ('z', '2')]

/-- `common.fix_ocr_digits`: chained single-character replaces. -/
def fix_ocr_digits (s : List Char) : List Char :=
  ocrDigitReplacements.foldl
    (fun acc p => acc.map (fun c => if c = p.1 then p.2 else c)) s

/-- `re.sub(r'\s+', ' ', s)`: collapse each maximal whitespace run into one
space. -/
def squeezeSpaces (s : List Char) : List Char :=
  s.foldr
    (fun c acc =>
      if isPySpace c then
        match acc with
        | ' ' :: _ => acc
        | _ => ' ' :: acc
      else c :: acc) []

/-- Word characters for the regex `\b` boundary: `[A-Za-z0-9_]`. -/
def isWordChar (c : Char) : Bool := c.isAlphanum || c = '_'

/-- `re.search(r'\b(\d{16})\b', s)` with `prev` the character preceding the
current scan position: the first position preceded by a non-word character
(or the start) holding exactly 16 digits followed by a non-word character
(or the end). -/
def nik16CondHolds (prev : Option Char) (s : List Char) : Bool :=
  (match prev with
   | none => true
   | some p => !isWordChar p) &&
  (s.take 16).length == 16 && (s.take 16).all Char.isDigit &&
  (match s.drop 16 with
   | [] => true
   | d :: _ => !isWordChar d)

def findNik16 : Option Char → List Char → Option (List Char)
  | _, [] => none
  | prev, s@(c :: t) =>
    if nik16CondHolds prev s then some (s.take 16) else findNik16 (some c) t

/-- The noisy-NIK character class `[0-9OoIlLDSBZz?|\-\)\(]` under
`re.IGNORECASE` (the letter members match in both cases). -/
def nikClass (c : Char) : Bool :=
  c.isDigit ||
  ['O', 'o', 'I', 'i', 'L', 'l', 'D', 'd', 'S', 's', 'B', 'b', 'Z', 'z',
   '?', '|', '-', ')', '('].contains c

/-- `re.search(r'NIK[:\s=]*([0-9OoIlLDSBZz?|\-\)\(]{14,22})', s, re.IGNORECASE)`:
scan for a case-insensitive `NIK`, skip the separator run (the separator and
class sets are disjoint), and capture the greedy class run capped at 22 when
it reaches length 14. -/
def nikLabelSearch : List Char → Option (List Char)
  | [] => none
  | s@(_ :: t) =>
    match s with
    | a :: b :: c :: rest =>
      if a.toUpper = 'N' && b.toUpper = 'I' && c.toUpper = 'K' then
        let r1 := rest.dropWhile (fun x => x = ':' || isPySpace x || x = '=')
        let run := (r1.takeWhile nikClass).take 22
        if run.length ≥ 14 then some run else nikLabelSearch t
      else nikLabelSearch t
    | _ => none

/-- `re.findall(r'[0-9OoIlLDSBZz?|\-\)\(]{14,22}', s)`: non-overlapping
greedy matches, scanning left to right (`fuel` bounds the recursion;
`s.length` is exact since each match consumes at least 14 characters). -/
def nikClassRuns : List Char → Nat → List (List Char)
  | _, 0 => []
  | [], _ => []
  | s@(c :: t), Nat.succ fuel =>
    if nikClass c then
      let m := (s.takeWhile nikClass).take 22
      if m.length ≥ 14 then m :: nikClassRuns (s.drop m.length) fuel
      else nikClassRuns t fuel
    else nikClassRuns t fuel

/-- The per-run acceptance step shared by strategies 2 and 3 of
`extract_nik`: digit-repair, strip non-digits, accept at least 16 digits
(truncated to 16). -/
def nikRunToDigits (seq : List Char) : Option String :=
  if ((fix_ocr_digits seq).filter Char.isDigit).length ≥ 16 then
    some (String.mk (((fix_ocr_digits seq).filter Char.isDigit).take 16))
  else none

/-- Strategy 3 of `extract_nik`: scan all noisy runs, accept the first with
at least 16 repaired digits. -/
def nikStrategy3 (clean : List Char) : Option String :=
  (nikClassRuns clean clean.length).findSome? nikRunToDigits

/-- `ktp_parser.extract_nik`: collapse whitespace, then a direct bounded
16-digit match, then the `NIK`-label strategy (falling through to strategy 3
when its repaired digits are too few), then the all-runs strategy. -/
def extract_nik (text : String) : Option String :=
  let clean := squeezeSpaces text.toList
  match findNik16 none clean with
  | some g => some (String.mk g)
  | none =>
    match nikLabelSearch clean with
    | some grp =>
      match nikRunToDigits grp with
      | some v => some v
      | none => nikStrategy3 clean
    | none => nikStrategy3 clean

/-!
## `schemas.py` — `ExtractedDataItem`

The 32-column record; every field is a string defaulting to empty, with
citizenship defaulting to `"WNI"` as in the source.
-/

/-- `schemas.ExtractedDataItem`: the 32-column person record. -/
structure ExtractedDataItem where
  title : String := ""
  nama : String := ""
  nama_ayah : String := ""
  jenis_identitas : String := ""
  no_identitas : String := ""
  nama_paspor : String := ""
  no_paspor : String := ""
  tanggal_paspor : String := ""
  kota_paspor : String := ""
  tempat_lahir : String := ""
  tanggal_lahir : String := ""
  alamat : String := ""
  provinsi : String := ""
  kabupaten : String := ""
  kecamatan : String := ""
  kelurahan : String := ""
  no_telepon : String := ""
  no_hp : String := ""
  kewarganegaraan : String := "WNI"
  status_pernikahan : String := ""
  pendidikan : String := ""
  pekerjaan : String := ""
  provider_visa : String := ""
  no_visa : String := ""
  tanggal_visa : String := ""
  tanggal_visa_akhir : String := ""
  asuransi : String := ""
  no_polis : String := ""
  tanggal_input_polis : String := ""
  tanggal_awal_polis : String := ""
  tanggal_akhir_polis : String := ""
  no_bpjs : String := ""
deriving DecidableEq

/-!
## `difflib.SequenceMatcher` (Python standard library)

`fuzzy_merge_data` falls back to `SequenceMatcher(None, n1, n2).ratio() > 0.80`.
For the short strings involved there is no junk and no autojunk (autojunk
needs `len(b) ≥ 200`), so `ratio` is `2*M/(len a + len b)` where `M` is the
total size of the recursive longest-matching-block decomposition.  The
comparison with the threshold is carried out exactly over the rationals
(`2*M/T > 4/5  ↔  5*M > 2*T`); for the block sizes reachable here the float
rounding in CPython cannot cross the threshold.
-/

/-- Length of the contiguous equal run ending at positions `(i, j)` of
`a`/`b`, staying inside the window `[alo, _) × [blo, _)` (the `j2len`
dynamic program of `SequenceMatcher.find_longest_match`). -/
def smRunLen (a b : List Char) (alo blo : Nat) : Nat → Nat → Nat → Nat
  | 0, _, _ => 0
  | Nat.succ fuel, i, j =>
    if alo ≤ i && blo ≤ j && (a.get? i).isSome && a.get? i == b.get? j then
      1 + (if alo < i && blo < j then smRunLen a b alo blo fuel (i - 1) (j - 1)
           else 0)
    else 0

/-- `find_longest_match` on the window `[alo, ahi) × [blo, bhi)` (no junk):
the earliest block of maximal size, returned as `(besti, bestj, bestsize)`.
The junk/popular extension steps of the source cannot fire when the junk
sets are empty, since the block found is already maximal. -/
def smBest (a b : List Char) (alo ahi blo bhi : Nat) : Nat × Nat × Nat :=
  (List.range (ahi - alo)).foldl (fun best di =>
    (List.range (bhi - blo)).foldl (fun best dj =>
      let i := alo + di
      let j := blo + dj
      let k := smRunLen a b alo blo (i + 1) i j
      if k > best.2.2 then (i + 1 - k, j + 1 - k, k) else best) best)
    (alo, blo, 0)

/-- Total matched size over the recursive matching-block decomposition
(`get_matching_blocks`); `fuel ≥ (ahi-alo)+(bhi-blo)+1` is exact. -/
def smMatchTotal (a b : List Char) : Nat → Nat → Nat → Nat → Nat → Nat
  | 0, _, _, _, _ => 0
  | Nat.succ fuel, alo, ahi, blo, bhi =>
    let r := smBest a b alo ahi blo bhi
    if r.2.2 = 0 then 0
    else r.2.2 + smMatchTotal a b fuel alo r.1 blo r.2.1 +
         smMatchTotal a b fuel (r.1 + r.2.2) ahi (r.2.1 + r.2.2) bhi

/-- `SequenceMatcher(None, a, b).ratio() > 0.80`, decided exactly over ℚ. -/
def seqMatcherGt80 (a b : List Char) : Bool :=
  5 * smMatchTotal a b (a.length + b.length + 1) 0 a.length 0 b.length >
    2 * (a.length + b.length)

/-!
## `services/cleaner.py` — `fuzzy_merge_data`
-/

/-- The `is_similar` closure of `fuzzy_merge_data` (threshold 0.80):
exact match, or prefix match for names longer than 3 characters, or
similarity ratio above the threshold. -/
def is_similar (n1 n2 : String) : Bool :=
  if n1 = "" || n2 = "" then false
  else if n1 = n2 then true
  else if n1.length > 3 && n2.length > 3 &&
          (n2.toList.isPrefixOf n1.toList || n1.toList.isPrefixOf n2.toList)
       then true
  else seqMatcherGt80 n1.toList n2.toList

/-- The name-priority step of the merge: prefer a name containing a space;
on equal spacing keep the longer name unless it contains `KKK`. -/
def mergeNama (existing new : String) : String :=
  let curr_space := strContains existing " "
  let new_space := strContains new " "
  if new_space && !curr_space then new
  else if new_space == curr_space then
    (if new.length > existing.length && !strContains new "KKK" then new
     else existing)
  else existing

/-- The fill-missing-fields step: `if not current_val and value: setattr`. -/
def fillField (cur new : String) : String :=
  if cur = "" ∧ new ≠ "" then new else cur

/-- Merging one new item into a matched existing record: the name-priority
step, then the fill loop over every field of the new item's dict (the name,
being non-empty after the priority step, is never overwritten by the fill). -/
def mergeInto (e n : ExtractedDataItem) : ExtractedDataItem where
  title := fillField e.title n.title
  nama := fillField (mergeNama e.nama n.nama) n.nama
  nama_ayah := fillField e.nama_ayah n.nama_ayah
  jenis_identitas := fillField e.jenis_identitas n.jenis_identitas
  no_identitas := fillField e.no_identitas n.no_identitas
  nama_paspor := fillField e.nama_paspor n.nama_paspor
  no_paspor := fillField e.no_paspor n.no_paspor
  tanggal_paspor := fillField e.tanggal_paspor n.tanggal_paspor
  kota_paspor := fillField e.kota_paspor n.kota_paspor
  tempat_lahir := fillField e.tempat_lahir n.tempat_lahir
  tanggal_lahir := fillField e.tanggal_lahir n.tanggal_lahir
  alamat := fillField e.alamat n.alamat
  provinsi := fillField e.provinsi n.provinsi
  kabupaten := fillField e.kabupaten n.kabupaten
  kecamatan := fillField e.kecamatan n.kecamatan
  kelurahan := fillField e.kelurahan n.kelurahan
  no_telepon := fillField e.no_telepon n.no_telepon
  no_hp := fillField e.no_hp n.no_hp
  kewarganegaraan := fillField e.kewarganegaraan n.kewarganegaraan
  status_pernikahan := fillField e.status_pernikahan n.status_pernikahan
  pendidikan := fillField e.pendidikan n.pendidikan
  pekerjaan := fillField e.pekerjaan n.pekerjaan
  provider_visa := fillField e.provider_visa n.provider_visa
  no_visa := fillField e.no_visa n.no_visa
  tanggal_visa := fillField e.tanggal_visa n.tanggal_visa
  tanggal_visa_akhir := fillField e.tanggal_visa_akhir n.tanggal_visa_akhir
  asuransi := fillField e.asuransi n.asuransi
  no_polis := fillField e.no_polis n.no_polis
  tanggal_input_polis := fillField e.tanggal_input_polis n.tanggal_input_polis
  tanggal_awal_polis := fillField e.tanggal_awal_polis n.tanggal_awal_polis
  tanggal_akhir_polis := fillField e.tanggal_akhir_polis n.tanggal_akhir_polis
  no_bpjs := fillField e.no_bpjs n.no_bpjs

/-- One iteration of the outer merge loop: merge `new` into the first
similar consolidated record (in order), else append it at the end. -/
def mergeStep : List ExtractedDataItem → ExtractedDataItem → List ExtractedDataItem
  | [], new => [new]
  | e :: rest, new =>
    if is_similar new.nama e.nama then mergeInto e new :: rest
    else e :: mergeStep rest new

/-- Case-insensitive membership of the identity type in
`('PASPOR', 'PASSPORT', 'VISA')`. -/
def idTypeIsPassportLike (s : String) : Bool :=
  pyUpperS s = "PASPOR" || pyUpperS s = "PASSPORT" || pyUpperS s = "VISA"

/-- The post-merge consistency pass of `fuzzy_merge_data` (one loop body):
a passport/visa-typed record with a passport number copies it into the
identity number; otherwise a record with a passport number and an empty
identity number receives the passport number and the type `"Paspor"`. -/
def ensureConsistency (it : ExtractedDataItem) : ExtractedDataItem :=
  if it.jenis_identitas != "" && idTypeIsPassportLike it.jenis_identitas then
    (if it.no_paspor != "" then { it with no_identitas := it.no_paspor } else it)
  else if it.no_paspor != "" && it.no_identitas == "" then
    { it with no_identitas := it.no_paspor, jenis_identitas := "Paspor" }
  else it

/-- `cleaner.fuzzy_merge_data`: the arrival-order merge loop followed by
the consistency pass over the consolidated list. -/
def fuzzy_merge_data (l : List ExtractedDataItem) : List ExtractedDataItem :=
  (l.foldl mergeStep []).map ensureConsistency

/-!
## `services/cleaner.py` — `clean_entry`
-/

/-- The punctuation class removed from names by `clean_entry`
(the last element is the backtick character). -/
def namePunct : List Char :=
  ['.', ',', '-', '!', '@', '#', '$', '%', '^', '&', '*', '(', ')', '_',
   '+', '=', '|', '<', '>', '?', '{', '}', '[', ']', '~', Char.ofNat 96]

/-- `re.sub(r'^LBL\s+', '', s)` for a literal label `lbl`: drop a leading
label followed by at least one whitespace character. -/
def stripPrefixLabel (lbl : List Char) (s : List Char) : List Char :=
  if lbl.isPrefixOf s then
    let r := s.drop lbl.length
    let ws := r.takeWhile isPySpace
    if ws.length ≥ 1 then r.drop ws.length else s
  else s

/-- `re.sub(r'\s+SE$', '', s)`: drop a trailing `SE` preceded by at least
one whitespace character. -/
def stripSuffixSE (s : List Char) : List Char :=
  let r := s.reverse
  if ['E', 'S'].isPrefixOf r then
    let r2 := r.drop 2
    let ws := r2.takeWhile isPySpace
    if ws.length ≥ 1 then (r2.drop ws.length).reverse else s
  else s

/-- The header-garbage blacklist of `clean_entry`. -/
def cleanEntryBlacklist : List String :=
  ["PROVINSI", "KABUPATEN", "JAWA", "NIK", "LAKI-LAKI", "PEREMPUAN",
   "AGAMA", "KAWIN", "GOL. DARAH", "GOL DARAH", "PARTAI"]

/-- `standardize_date(t) or t`: keep the original text when
standardization fails. -/
def standardizeOrKeep (s : String) : String :=
  match standardize_date s with
  | some v => v
  | none => s

/-- The date/place standardization tail of `clean_entry` (each field is
touched only when non-empty, mirroring the `if entry.field:` guards). -/
def cleanEntryDates (e : ExtractedDataItem) : ExtractedDataItem :=
  { e with
    tanggal_lahir :=
      if e.tanggal_lahir != "" then standardizeOrKeep e.tanggal_lahir
      else e.tanggal_lahir
    tanggal_paspor :=
      if e.tanggal_paspor != "" then standardizeOrKeep e.tanggal_paspor
      else e.tanggal_paspor
    tanggal_visa :=
      if e.tanggal_visa != "" then standardizeOrKeep e.tanggal_visa
      else e.tanggal_visa
    tanggal_visa_akhir :=
      if e.tanggal_visa_akhir != "" then standardizeOrKeep e.tanggal_visa_akhir
      else e.tanggal_visa_akhir
    tempat_lahir :=
      if e.tempat_lahir != "" then
        String.mk (pyStrip (pyUpper e.tempat_lahir.toList))
      else e.tempat_lahir }

/-- `cleaner.clean_entry`: drop an entry with no useful data at all;
otherwise clean the name (clearing it instead of dropping when other data
is present), then standardize dates and the place of birth. -/
def clean_entry (entry : ExtractedDataItem) : Option ExtractedDataItem :=
  let has_visa_data := entry.no_visa != "" || entry.tanggal_visa != "" ||
    entry.provider_visa != ""
  let has_passport_data := entry.no_paspor != "" || entry.tanggal_paspor != ""
  let has_id_data := entry.no_identitas != ""
  let has_other := has_visa_data || has_passport_data || has_id_data
  let has_name := entry.nama != "" && !(pyStrip entry.nama.toList == [])
  if !has_name && !has_other then none
  else if has_name then
    let n0 := pyUpper entry.nama.toList
    let n1 := n0.map (fun c => if namePunct.contains c then ' ' else c)
    let n2 := pyStrip (squeezeSpaces n1)
    let n3 := stripSuffixSE (stripPrefixLabel ['I', 'D', 'N']
      (stripPrefixLabel ['D', 'N'] n2))
    if n3.length < 3 && !has_other then none
    else
      let n4 := if n3.length < 3 then [] else n3
      let bl := cleanEntryBlacklist.any (fun w => containsSub w.toList n4)
      if bl && !has_other then none
      else
        let n5 := if bl then [] else n4
        some (cleanEntryDates { entry with nama := String.mk n5 })
  else some (cleanEntryDates entry)

/-!
## `services/validators.py`

`validate_date` calls `datetime.strptime`, modelled below: `%Y` is exactly
four digits, `%m`/`%d` are one or two digits with CPython's `_strptime`
alternation order, the whole string must be consumed, and the resulting
date must exist in the proleptic Gregorian calendar with year ≥ 1.
-/

/-- A single validation warning `{"field": ..., "message": ...}`. -/
structure ValidationWarning where
  field : String
  message : String
deriving DecidableEq

/-- The single-quote character, used in warning messages. -/
def sq : String := String.mk [Char.ofNat 39]

/-- `%Y`: exactly four digits. -/
def parseYear4 (s : List Char) : Option (Nat × List Char) :=
  match s with
  | a :: b :: c :: d :: rest =>
    if a.isDigit && b.isDigit && c.isDigit && d.isDigit then
      some (digitsToNat [a, b, c, d], rest)
    else none
  | _ => none

/-- `%m` as the regex `1[0-2]|0[1-9]|[1-9]`: candidate parses in
alternation order (the backtracking order of the regex engine). -/
def monthAlts (s : List Char) : List (Nat × List Char) :=
  (match s with
   | '1' :: c :: r =>
     if '0' ≤ c ∧ c ≤ '2' then [(digitsToNat ['1', c], r)] else []
   | _ => []) ++
  (match s with
   | '0' :: c :: r =>
     if '1' ≤ c ∧ c ≤ '9' then [(digitsToNat [c], r)] else []
   | _ => []) ++
  (match s with
   | c :: r => if '1' ≤ c ∧ c ≤ '9' then [(digitsToNat [c], r)] else []
   | _ => [])

/-- `%d` as the regex `3[01]|[12]\d|0[1-9]|[1-9]`, in alternation order. -/
def dayAlts (s : List Char) : List (Nat × List Char) :=
  (match s with
   | '3' :: c :: r =>
     if c = '0' ∨ c = '1' then [(digitsToNat ['3', c], r)] else []
   | _ => []) ++
  (match s with
   | a :: c :: r =>
     if (a = '1' ∨ a = '2') ∧ c.isDigit then [(digitsToNat [a, c], r)] else []
   | _ => []) ++
  (match s with
   | '0' :: c :: r =>
     if '1' ≤ c ∧ c ≤ '9' then [(digitsToNat [c], r)] else []
   | _ => []) ++
  (match s with
   | c :: r => if '1' ≤ c ∧ c ≤ '9' then [(digitsToNat [c], r)] else []
   | _ => [])

/-- Full-string match of a `%Y sep %m sep %d` format, returning
`(year, month, day)`. -/
def matchYMD (sep : Char) (s : List Char) : Option (Nat × Nat × Nat) :=
  match parseYear4 s with
  | none => none
  | some (y, r1) =>
    match r1 with
    | c :: r2 =>
      if c = sep then
        (monthAlts r2).findSome? (fun mr =>
          match mr.2 with
          | c2 :: r4 =>
            if c2 = sep then
              (dayAlts r4).findSome? (fun dr =>
                if dr.2 = [] then some (y, mr.1, dr.1) else none)
            else none
          | [] => none)
      else none
    | [] => none

/-- Full-string match of a `%d sep %m sep %Y` format. -/
def matchDMY (sep : Char) (s : List Char) : Option (Nat × Nat × Nat) :=
  (dayAlts s).findSome? (fun dr =>
    match dr.2 with
    | c :: r2 =>
      if c = sep then
        (monthAlts r2).findSome? (fun mr =>
          match mr.2 with
          | c2 :: r4 =>
            if c2 = sep then
              match parseYear4 r4 with
              | some (y, []) => some (y, mr.1, dr.1)
              | _ => none
            else none
          | [] => none)
      else none
    | [] => none)

/-- Proleptic Gregorian leap year. -/
def isLeapYear (y : Nat) : Bool := (y % 4 == 0 && y % 100 != 0) || y % 400 == 0

/-- Days in a month (month already in 1..12 from the token grammar). -/
def daysInMonth (y m : Nat) : Nat :=
  if m = 2 then (if isLeapYear y then 29 else 28)
  else if m = 4 ∨ m = 6 ∨ m = 9 ∨ m = 11 then 30 else 31

/-- `datetime` construction succeeds: year ≥ 1 and a real calendar day. -/
def validYMD (t : Nat × Nat × Nat) : Bool :=
  if 1 ≤ t.1 ∧ t.2.2 ≤ daysInMonth t.1 t.2.1 then true else false

/-- `strptime` succeeds under one of the four accepted formats
`%Y-%m-%d`, `%d-%m-%Y`, `%d/%m/%Y`, `%Y/%m/%d`. -/
def strptimeOkAny (s : List Char) : Bool :=
  [matchYMD '-' s, matchDMY '-' s, matchDMY '/' s, matchYMD '/' s].any
    (fun r => match r with | some t => validYMD t | none => false)

/-- `validators.validate_nik` (`cleaned = re.sub(r'\D', '', nik)` inlined). -/
def validate_nik (nik : String) : Option String :=
  if nik = "" then none
  else if (nik.toList.filter Char.isDigit).length ≠ 16 then
    some ("NIK harus 16 digit (ditemukan " ++
      String.mk (natRepr (nik.toList.filter Char.isDigit).length) ++ " digit)")
  else none

/-- `validators.validate_date`. -/
def validate_date (value lbl : String) : Option String :=
  if value = "" then none
  else if strptimeOkAny (pyStrip value.toList) then none
  else some (lbl ++ ": format tanggal tidak valid (gunakan YYYY-MM-DD)")

/-- `validators.validate_passport_number` (`^[A-Z]\d{6,7}$`). -/
def validate_passport_number (p : String) : Option String :=
  if p = "" then none
  else
    let cleaned := pyUpper (pyStrip p.toList)
    let ok := match cleaned with
      | c :: r => c.isUpper && r.all Char.isDigit &&
          (r.length == 6 || r.length == 7)
      | [] => false
    if ok then none
    else some ("No Paspor format tidak valid: " ++ sq ++ p ++ sq)

/-- `validators.validate_visa_number`. -/
def validate_visa_number (v : String) : Option String :=
  if v = "" then none
  else if (pyStrip v.toList).length < 8 then
    some ("No Visa terlalu pendek: " ++ sq ++ v ++ sq)
  else none

/-- `validators.validate_kewarganegaraan`. -/
def validate_kewarganegaraan (v : String) : Option String :=
  if v = "" then none
  else if pyUpperS v = "WNI" ∨ pyUpperS v = "WNA" then none
  else some "Kewarganegaraan harus WNI atau WNA"

/-- Turn an optional message into a warning list for a field. -/
def optWarn (f : String) : Option String → List ValidationWarning
  | some m => [⟨f, m⟩]
  | none => []

/-- `validators.validate_row`: the warnings, in source order. -/
def validate_row (r : ExtractedDataItem) : List ValidationWarning :=
  optWarn "no_identitas"
    (if pyUpperS r.jenis_identitas = "KTP" ∨ pyUpperS r.jenis_identitas = "MERGED"
     then validate_nik r.no_identitas else none) ++
  optWarn "no_paspor" (validate_passport_number r.no_paspor) ++
  optWarn "no_visa" (validate_visa_number r.no_visa) ++
  optWarn "tanggal_lahir" (validate_date r.tanggal_lahir "Tanggal Lahir") ++
  optWarn "tanggal_paspor" (validate_date r.tanggal_paspor "Tanggal Paspor") ++
  optWarn "tanggal_visa" (validate_date r.tanggal_visa "Tanggal Visa") ++
  optWarn "tanggal_visa_akhir"
    (validate_date r.tanggal_visa_akhir "Tanggal Visa Akhir") ++
  optWarn "tanggal_input_polis"
    (validate_date r.tanggal_input_polis "Tanggal Input Polis") ++
  optWarn "tanggal_awal_polis"
    (validate_date r.tanggal_awal_polis "Tanggal Awal Polis") ++
  optWarn "tanggal_akhir_polis"
    (validate_date r.tanggal_akhir_polis "Tanggal Akhir Polis") ++
  optWarn "kewarganegaraan" (validate_kewarganegaraan r.kewarganegaraan) ++
  (if pyStrip r.nama.toList = [] then
    [⟨"nama", "Nama tidak boleh kosong"⟩]
   else [])

/-!
## `document_processor.py` — dispatch, useful-data gate, cache gating

`_process_single_image` is modelled with the per-attempt behaviour of the
primary engine as an oracle `primary : Nat → Except String α` (attempt
number to outcome) and the single fallback call as `gemini`.  `time.sleep`
is recorded as the list of requested delays.  The model is a total
function: the source's `except` clauses catch every exception, so no input
propagates one.
-/

/-- `document_processor.MAX_RETRIES` (default). -/
def MAX_RETRIES : Nat := 2

/-- Final outcome of `_process_single_image`: a successful field map or the
partial/error marker dict (`'_partial': True` with `'_error'` set). -/
inductive DispatchResult (α : Type) where
  | ok (v : α)
  | partialErr (msg : String)
deriving DecidableEq

/-- Observable trace of one `_process_single_image` run. -/
structure DispatchOutcome (α : Type) where
  primaryCalls : Nat
  sleeps : List ℚ
  fallbackCalls : Nat
  result : DispatchResult α
deriving DecidableEq

/-- The retry loop `for attempt in range(1, MAX_RETRIES + 2)`:
`remaining` is the number of attempts left; a failed non-final attempt
sleeps `base * attempt` before the next one.  Returns the number of
primary calls, the sleeps, and the final outcome (the error kept is the
last one raised). -/
def attemptLoop {α : Type} (primary : Nat → Except String α) (base : ℚ) :
    Nat → Nat → Nat × List ℚ × Except String α
  | _, 0 => (0, [], Except.error "")
  | attempt, 1 =>
    (match primary attempt with
     | Except.ok v => (1, [], Except.ok v)
     | Except.error e => (1, [], Except.error e))
  | attempt, Nat.succ (Nat.succ remaining) =>
    match primary attempt with
    | Except.ok v => (1, [], Except.ok v)
    | Except.error _ =>
      let r := attemptLoop primary base (attempt + 1) (Nat.succ remaining)
      (r.1 + 1, base * (attempt : ℚ) :: r.2.1, r.2.2)

/-- `_process_single_image`: retry the primary engine, then fall back to
the vision model exactly once when enabled and the configured engine is not
already `"gemini"`, else return the partial/error marker. -/
def processSingleImage {α : Type} (engine : String) (fallbackEnabled : Bool)
    (base : ℚ) (primary : Nat → Except String α) (gemini : Except String α) :
    DispatchOutcome α :=
  let r := attemptLoop primary base 1 (MAX_RETRIES + 1)
  match r.2.2 with
  | Except.ok v => ⟨r.1, r.2.1, 0, DispatchResult.ok v⟩
  | Except.error e =>
    if fallbackEnabled && engine != "gemini" then
      match gemini with
      | Except.ok v => ⟨r.1, r.2.1, 1, DispatchResult.ok v⟩
      | Except.error e2 => ⟨r.1, r.2.1, 1, DispatchResult.partialErr e2⟩
    else ⟨r.1, r.2.1, 0, DispatchResult.partialErr e⟩

/-- A raw OCR output dict (Gemini field map): every field optional
(`none` = key absent or JSON null), plus the `'_partial'` marker. -/
structure GDoc where
  document_type : Option String := none
  title : Option String := none
  nama : Option String := none
  nama_ayah : Option String := none
  no_identitas : Option String := none
  no_paspor : Option String := none
  tanggal_paspor : Option String := none
  kota_paspor : Option String := none
  tempat_lahir : Option String := none
  tanggal_lahir : Option String := none
  alamat : Option String := none
  provinsi : Option String := none
  kabupaten : Option String := none
  kecamatan : Option String := none
  kelurahan : Option String := none
  no_telepon : Option String := none
  no_hp : Option String := none
  status_pernikahan : Option String := none
  pendidikan : Option String := none
  pekerjaan : Option String := none
  provider_visa : Option String := none
  no_visa : Option String := none
  tanggal_visa : Option String := none
  tanggal_visa_akhir : Option String := none
  asuransi : Option String := none
  no_polis : Option String := none
  tanggal_input_polis : Option String := none
  tanggal_awal_polis : Option String := none
  tanggal_akhir_polis : Option String := none
  no_bpjs : Option String := none
  partialFlag : Bool := false
deriving DecidableEq

/-- Python `doc_data.get(k) or ""`. -/
def pyOrEmpty : Option String → String
  | none => ""
  | some s => s

/-- Python truthiness of `doc_data.get(k)`. -/
def truthyOpt : Option String → Bool
  | none => false
  | some s => s != ""

/-- Python `doc_data.get('document_type', 'UNKNOWN')`. -/
def getDocType : Option String → String
  | none => "UNKNOWN"
  | some s => s

/-- `document_processor._has_useful_data`: name, identity number, passport
number or visa number non-empty. -/
def has_useful_data (d : GDoc) : Bool :=
  truthyOpt d.nama || truthyOpt d.no_identitas || truthyOpt d.no_paspor ||
    truthyOpt d.no_visa

/-- `mappers.doc_data_to_item`: raw dict to the 32-column record
(citizenship forced to `"WNI"`, passport name mirroring the name). -/
def doc_data_to_item (d : GDoc) : ExtractedDataItem where
  title := pyOrEmpty d.title
  nama := pyOrEmpty d.nama
  nama_ayah := pyOrEmpty d.nama_ayah
  jenis_identitas := getDocType d.document_type
  no_identitas := pyOrEmpty d.no_identitas
  nama_paspor := pyOrEmpty d.nama
  no_paspor := pyOrEmpty d.no_paspor
  tanggal_paspor := pyOrEmpty d.tanggal_paspor
  kota_paspor := pyOrEmpty d.kota_paspor
  tempat_lahir := pyOrEmpty d.tempat_lahir
  tanggal_lahir := pyOrEmpty d.tanggal_lahir
  alamat := pyOrEmpty d.alamat
  provinsi := pyOrEmpty d.provinsi
  kabupaten := pyOrEmpty d.kabupaten
  kecamatan := pyOrEmpty d.kecamatan
  kelurahan := pyOrEmpty d.kelurahan
  no_telepon := pyOrEmpty d.no_telepon
  no_hp := pyOrEmpty d.no_hp
  kewarganegaraan := "WNI"
  status_pernikahan := pyOrEmpty d.status_pernikahan
  pendidikan := pyOrEmpty d.pendidikan
  pekerjaan := pyOrEmpty d.pekerjaan
  provider_visa := pyOrEmpty d.provider_visa
  no_visa := pyOrEmpty d.no_visa
  tanggal_visa := pyOrEmpty d.tanggal_visa
  tanggal_visa_akhir := pyOrEmpty d.tanggal_visa_akhir
  asuransi := pyOrEmpty d.asuransi
  no_polis := pyOrEmpty d.no_polis
  tanggal_input_polis := pyOrEmpty d.tanggal_input_polis
  tanggal_awal_polis := pyOrEmpty d.tanggal_awal_polis
  tanggal_akhir_polis := pyOrEmpty d.tanggal_akhir_polis
  no_bpjs := pyOrEmpty d.no_bpjs

/-- Observable effect of `_process_one` on one unit: what was stored into
the cache (`none` = no `put`), the success flag, and the items returned
(which `process_files` appends to `extracted_data`, the merge-stage input). -/
structure UnitOutcome where
  cacheStored : Option (List ExtractedDataItem)
  success : Bool
  items : List ExtractedDataItem
deriving DecidableEq

/-- The image branch of `_process_one`: on a cache miss, a partial result
is reported as a failure (no caching, no items), and any other result is
wrapped into a single item, cached and returned — with no useful-data check. -/
def processOneImage (cached : Option (List ExtractedDataItem)) (ocr : GDoc) :
    UnitOutcome :=
  match cached with
  | some items => ⟨none, true, items⟩
  | none =>
    if ocr.partialFlag then ⟨none, false, []⟩
    else ⟨some [doc_data_to_item ocr], true, [doc_data_to_item ocr]⟩

/-- The PDF branch of `_process_one`: pages failing `_has_useful_data` are
dropped, and the item list is cached only when non-empty. -/
def processOnePdf (cached : Option (List ExtractedDataItem))
    (pages : List GDoc) : UnitOutcome :=
  match cached with
  | some items => ⟨none, true, items⟩
  | none =>
    let items := (pages.filter has_useful_data).map doc_data_to_item
    ⟨if items = [] then none else some items, true, items⟩

/-- The sanitize stage of `run_pipeline` (step 1): keep the entries
surviving `clean_entry`. -/
def sanitize (l : List ExtractedDataItem) : List ExtractedDataItem :=
  l.filterMap clean_entry

/-- `run_pipeline` steps 1–2: sanitize then fuzzy-merge (the merge-stage
record output). -/
def run_pipeline_records (l : List ExtractedDataItem) : List ExtractedDataItem :=
  fuzzy_merge_data (sanitize l)

/-!
## Test fixtures
-/

/-- Fixture: a record with every one of the 32 fields non-empty. -/
def allSetItem : ExtractedDataItem where
  title := "T"
  nama := "ABC DEF"
  nama_ayah := "AY"
  jenis_identitas := "KTP"
  no_identitas := "1"
  nama_paspor := "NP"
  no_paspor := "P1"
  tanggal_paspor := "TP"
  kota_paspor := "KP"
  tempat_lahir := "TL"
  tanggal_lahir := "TGL"
  alamat := "AL"
  provinsi := "PR"
  kabupaten := "KB"
  kecamatan := "KC"
  kelurahan := "KL"
  no_telepon := "NT"
  no_hp := "NH"
  kewarganegaraan := "WNI"
  status_pernikahan := "SP"
  pendidikan := "PD"
  pekerjaan := "PK"
  provider_visa := "PV"
  no_visa := "NV"
  tanggal_visa := "TV"
  tanggal_visa_akhir := "TVA"
  asuransi := "AS"
  no_polis := "NO1"
  tanggal_input_polis := "TIP"
  tanggal_awal_polis := "TAP"
  tanggal_akhir_polis := "TAK"
  no_bpjs := "NB"

/-- Fixture: a record merged into `allSetItem` by the witness. -/
def mergeProbe : ExtractedDataItem := { nama := "ABC DEFG" }

/-- Fixture: a non-partial OCR result with none of the four useful fields,
but a visa date, so it even survives sanitization. -/
def uselessVisaDoc : GDoc := { tanggal_visa := some "QQ" }

/-- Fixture: a partial/error marker result. -/
def partialDoc : GDoc := { partialFlag := true }

/-- Fixture: a useful OCR page. -/
def usefulDoc : GDoc := { nama := some "AHMAD", document_type := some "KTP" }

/-- Fixture: a KTP record with a 15-digit identity number and an
adversarial passport value whose quoted warning also contains `16 digit`. -/
def ktp15Row : ExtractedDataItem where
  jenis_identitas := "KTP"
  no_identitas := "123456789012345"
  no_paspor := "16 digit"

/-- Fixture: a plain KTP record with a 15-digit identity number. -/
def ktpPlainRow : ExtractedDataItem where
  jenis_identitas := "KTP"
  no_identitas := "123456789012345"

/-!
## Helper lemmas
-/

/-- `String.mk` length unfolding. -/
theorem mk_length (l : List Char) : (String.mk l).length = l.length := rfl

/-- `String.mk` round-trip to `List Char`. -/
theorem mk_toList (l : List Char) : (String.mk l).toList = l := rfl

/-- A non-empty field is never overwritten by the fill step. -/
theorem fillField_of_ne (cur new : String) (h : cur ≠ "") :
    fillField cur new = cur := by
  unfold fillField
  rw [if_neg]
  intro hc
  exact h hc.1

/-- `findNik16` only returns 16-character all-digit groups. -/
theorem findNik16_shape (l : List Char) :
    ∀ prev g, findNik16 prev l = some g →
      g.length = 16 ∧ g.all Char.isDigit = true := by
  induction l with
  | nil => intro prev g h; simp [findNik16] at h
  | cons c t ih =>
    intro prev g h
    rw [findNik16] at h
    split at h
    · rename_i hcond
      rw [nik16CondHolds.eq_def] at hcond
      simp only [Bool.and_eq_true, beq_iff_eq] at hcond
      injection h with h2
      subst h2
      exact ⟨hcond.1.1.2, hcond.1.2⟩
    · exact ih (some c) g h

/-- Taking 16 from a digit-filtered list of length at least 16 yields
exactly 16 digits. -/
theorem filtered_take16 (l : List Char)
    (h : (l.filter Char.isDigit).length ≥ 16) :
    ((l.filter Char.isDigit).take 16).length = 16 ∧
      ((l.filter Char.isDigit).take 16).all Char.isDigit = true := by
  constructor
  · rw [List.length_take]
    omega
  · rw [List.all_eq_true]
    intro x hx
    exact (List.mem_filter.1 (List.mem_of_mem_take hx)).2

/-- `nikRunToDigits` only returns 16-character all-digit strings. -/
theorem nikRunToDigits_shape (seq : List Char) (t : String)
    (h : nikRunToDigits seq = some t) :
    t.length = 16 ∧ t.toList.all Char.isDigit = true := by
  rw [nikRunToDigits] at h
  split at h
  · rename_i hge
    injection h with h2
    subst h2
    rw [mk_length, mk_toList]
    exact filtered_take16 (fix_ocr_digits seq) hge
  · exact absurd h (by simp)

/-- `nikStrategy3` only returns 16-character all-digit strings. -/
theorem nikStrategy3_shape (clean : List Char) (t : String)
    (h : nikStrategy3 clean = some t) :
    t.length = 16 ∧ t.toList.all Char.isDigit = true := by
  rw [nikStrategy3] at h
  obtain ⟨seq, _, hseq⟩ := List.exists_of_findSome?_eq_some h
  exact nikRunToDigits_shape seq t hseq

/-- Warnings for a different field are filtered away. -/
theorem filter_optWarn_ne (f t : String) (o : Option String) (h : f ≠ t) :
    (optWarn f o).filter (fun w => w.field == t) = [] := by
  cases o <;> simp [optWarn, h]

/-- The name warning is filtered away for a different field. -/
theorem filter_nama_seg (t : String) (c : Prop) [Decidable c]
    (h : ("nama" : String) ≠ t) :
    (if c then [(⟨"nama", "Nama tidak boleh kosong"⟩ : ValidationWarning)]
     else []).filter (fun w => w.field == t) = [] := by
  split <;> simp [h]

/-!
## Claim theorems
-/

/-- C1 (code bug): the seven spec examples of `standardize_date`, evaluated
on the embedded code.  Four agree with the spec; three diverge: uppercasing
the input *before* the `I→1`/`l→1` OCR replacements turns `MEI` into `ME1`
(and leaves a lowercase `l` un-repaired after uppercasing removes it), so
the textual-month strategy never fires — `"16 MEI 1990"` and
`"I6 MEI 1990"` fall through to the numeric branch and come out as January
(`"1990-01-16"`), and `"16 MEI l990"` yields no date at all, contradicting
the function's own docstring and the repository's `test_logic.py`. -/
theorem C1_standardize_date_eval :
    standardize_date "16 MEI 1990" = some "1990-01-16" ∧
    standardize_date "16 MEI l990" = none ∧
    standardize_date "I6 MEI 1990" = some "1990-01-16" ∧
    standardize_date "17 AGU 1995" = some "1995-08-17" ∧
    standardize_date "16-05-1990" = some "1990-05-16" ∧
    standardize_date "1990-05-16" = some "1990-05-16" ∧
    standardize_date "1990-13-12" = some "1990-12-13" := by decide

/-- C5: LRU behaviour of the cache at `max_size = 3`.  Inserting
`a, b, c, d` evicts `a`; while after `put a, put b, put c`, a `get a` hit
re-orders `a` as most recently used, and the following `put d` evicts `b`
(the new least-recently-used) with `a` still present. -/
theorem C5_lru_scenarios :
    (let c0 : OCRCache Nat := ⟨[], 3, 3600, 0, 0⟩
     let s1 := cachePut (cachePut (cachePut (cachePut c0 0 "a" 1) 0 "b" 2)
       0 "c" 3) 0 "d" 4
     containsKey s1 "a" = false ∧ containsKey s1 "b" = true ∧
       containsKey s1 "c" = true ∧ containsKey s1 "d" = true) ∧
    (let c0 : OCRCache Nat := ⟨[], 3, 3600, 0, 0⟩
     let s3 := cachePut (cachePut (cachePut c0 0 "a" 1) 0 "b" 2) 0 "c" 3
     let g := cacheGet s3 0 "a"
     let s4 := cachePut g.2 0 "d" 4
     g.1 = some 1 ∧ containsKey s4 "a" = true ∧ containsKey s4 "b" = false ∧
       containsKey s4 "c" = true ∧ containsKey s4 "d" = true) := by decide

set_option maxRecDepth 8000 in
/-- C8: MRZ chevron repair on the spec example: the lookalike letters
`K`, `C`, `E` adjacent to chevrons are repaired into chevrons, the length
is preserved, and the output stays within the `A-Z`, `0-9`, `<` alphabet. -/
theorem C8_mrz_repair :
    clean_mrz_line "P<IDN<K<C<E<<<" = "P<IDN<<<<<<<<<" ∧
    (clean_mrz_line "P<IDN<K<C<E<<<").length =
      ("P<IDN<K<C<E<<<" : String).length ∧
    (clean_mrz_line "P<IDN<K<C<E<<<").toList.all
      (fun c => c.isUpper || c.isDigit || c = '<') = true := by decide

/-- C7: whenever the case-folded text contains `VISA` together with
`SAUDI`, `NUMBER` or `NO`, the classifier answers `VISA` — this is the
first branch, so no amount of KTP/passport keywords or MRZ signatures in
the same text can override it. -/
theorem C7_visa_priority (t : String)
    (h1 : strContains (pyUpperS t) "VISA" = true)
    (h2 : strContains (pyUpperS t) "SAUDI" = true ∨
          strContains (pyUpperS t) "NUMBER" = true ∨
          strContains (pyUpperS t) "NO" = true) :
    detect_document_type t = "VISA" := by
  unfold detect_document_type
  rcases h2 with h2 | h2 | h2 <;> simp [h1, h2]

/-- Witness for C7 at a concrete text. -/
theorem C7_witness : detect_document_type "NIK PROVINSI KABUPATEN VISA NO 1" = "VISA" :=
  C7_visa_priority "NIK PROVINSI KABUPATEN VISA NO 1" (by decide)
    (Or.inr (Or.inr (by decide)))

/-- C10 (implicit claim): `extract_nik` returns either `none` or a string
of exactly 16 decimal digits — every strategy either matches a bounded
16-digit group or truncates a repaired all-digit run of length ≥ 16. -/
theorem C10_extract_nik_shape (s t : String) (h : extract_nik s = some t) :
    t.length = 16 ∧ t.toList.all Char.isDigit = true := by
  simp only [extract_nik] at h
  rcases hf : findNik16 none (squeezeSpaces s.toList) with _ | g
  · rw [hf] at h
    dsimp only at h
    rcases hl : nikLabelSearch (squeezeSpaces s.toList) with _ | grp
    · rw [hl] at h
      dsimp only at h
      exact nikStrategy3_shape _ t h
    · rw [hl] at h
      dsimp only at h
      rcases hr : nikRunToDigits grp with _ | v
      · rw [hr] at h
        dsimp only at h
        exact nikStrategy3_shape _ t h
      · rw [hr] at h
        dsimp only at h
        injection h with h2
        subst h2
        exact nikRunToDigits_shape grp v hr
  · rw [hf] at h
    dsimp only at h
    injection h with h2
    subst h2
    rw [mk_length, mk_toList]
    exact findNik16_shape _ none g hf

set_option maxRecDepth 8000 in
/-- Witness for C10: the spec example input. -/
theorem C10_witness :
    ("3515082506920002" : String).length = 16 ∧
    ("3515082506920002" : String).toList.all Char.isDigit = true :=
  C10_extract_nik_shape "NIK : 3515082506920002" "3515082506920002" (by decide)

/-- The consistency pass establishes the passport/visa invariant on every
record it outputs. -/
theorem ensureConsistency_invariant (x : ExtractedDataItem) :
    idTypeIsPassportLike (ensureConsistency x).jenis_identitas = true →
    (ensureConsistency x).no_paspor ≠ "" →
    (ensureConsistency x).no_identitas = (ensureConsistency x).no_paspor := by
  rw [ensureConsistency]
  split_ifs with h1 h2 h3
  · intro _ _
    rfl
  · intro _ hp
    exfalso
    apply hp
    simpa using h2
  · intro _ _
    rfl
  · intro htype _
    exfalso
    have hne : x.jenis_identitas ≠ "" := by
      intro he
      rw [he] at htype
      exact absurd htype (by decide)
    apply h1
    rw [Bool.and_eq_true]
    exact ⟨bne_iff_ne.mpr hne, htype⟩

/-- C3: every record output by `fuzzy_merge_data` whose identity type is
`Paspor`/`Passport`/`Visa` (case-insensitively) and whose passport number
is non-empty has its identity number equal to the passport number; and the
consistency pass maps any record with a passport number, an empty identity
number and any other identity type to the same record with the passport
number copied into the identity number and the type set to `"Paspor"`. -/
theorem C3_consistency_invariant :
    (∀ l : List ExtractedDataItem, ∀ r ∈ fuzzy_merge_data l,
      idTypeIsPassportLike r.jenis_identitas = true → r.no_paspor ≠ "" →
      r.no_identitas = r.no_paspor) ∧
    (∀ it : ExtractedDataItem, it.no_paspor ≠ "" → it.no_identitas = "" →
      ¬(it.jenis_identitas ≠ "" ∧
        idTypeIsPassportLike it.jenis_identitas = true) →
      ensureConsistency it =
        { it with no_identitas := it.no_paspor,
                  jenis_identitas := "Paspor" }) := by
  constructor
  · intro l r hr htype hpas
    rw [fuzzy_merge_data] at hr
    obtain ⟨x, _, rfl⟩ := List.mem_map.1 hr
    exact ensureConsistency_invariant x htype hpas
  · intro it h1 h2 h3
    have hc1 : ¬((it.jenis_identitas != "") &&
        idTypeIsPassportLike it.jenis_identitas) = true := by
      rw [Bool.and_eq_true]
      rintro ⟨ha, hb⟩
      exact h3 ⟨bne_iff_ne.mp ha, hb⟩
    have hc2 : ((it.no_paspor != "") && (it.no_identitas == "")) = true := by
      rw [Bool.and_eq_true]
      exact ⟨bne_iff_ne.mpr h1, beq_iff_eq.mpr h2⟩
    rw [ensureConsistency, if_neg hc1, if_pos hc2]

/-- Witness for C3, at a single visa record and a mistyped record. -/
theorem C3_witness :
    ({ nama := "BUDI SANTOSO", jenis_identitas := "Visa",
       no_paspor := "C1234567", no_identitas := "C1234567" } :
        ExtractedDataItem).no_identitas =
      ({ nama := "BUDI SANTOSO", jenis_identitas := "Visa",
         no_paspor := "C1234567", no_identitas := "C1234567" } :
          ExtractedDataItem).no_paspor ∧
    ensureConsistency { no_paspor := "X1", jenis_identitas := "KTP" } =
      { no_paspor := "X1", jenis_identitas := "Paspor",
        no_identitas := "X1" } := by
  constructor
  · exact C3_consistency_invariant.1
      [{ nama := "BUDI SANTOSO", jenis_identitas := "Visa",
         no_paspor := "C1234567" }] _ (by decide) (by decide) (by decide)
  · exact C3_consistency_invariant.2
      { no_paspor := "X1", jenis_identitas := "KTP" }
      (by decide) (by decide) (by decide)

set_option maxRecDepth 8000 in
/-- C6: in a merge of a new item into a matched record, every field other
than the name that is already non-empty keeps its value; and the spec
two-record example consolidates into exactly the stated single record. -/
theorem C6_merge_frame :
    (∀ e n : ExtractedDataItem,
      (e.title ≠ "" → (mergeInto e n).title = e.title) ∧
      (e.nama_ayah ≠ "" → (mergeInto e n).nama_ayah = e.nama_ayah) ∧
      (e.jenis_identitas ≠ "" → (mergeInto e n).jenis_identitas = e.jenis_identitas) ∧
      (e.no_identitas ≠ "" → (mergeInto e n).no_identitas = e.no_identitas) ∧
      (e.nama_paspor ≠ "" → (mergeInto e n).nama_paspor = e.nama_paspor) ∧
      (e.no_paspor ≠ "" → (mergeInto e n).no_paspor = e.no_paspor) ∧
      (e.tanggal_paspor ≠ "" → (mergeInto e n).tanggal_paspor = e.tanggal_paspor) ∧
      (e.kota_paspor ≠ "" → (mergeInto e n).kota_paspor = e.kota_paspor) ∧
      (e.tempat_lahir ≠ "" → (mergeInto e n).tempat_lahir = e.tempat_lahir) ∧
      (e.tanggal_lahir ≠ "" → (mergeInto e n).tanggal_lahir = e.tanggal_lahir) ∧
      (e.alamat ≠ "" → (mergeInto e n).alamat = e.alamat) ∧
      (e.provinsi ≠ "" → (mergeInto e n).provinsi = e.provinsi) ∧
      (e.kabupaten ≠ "" → (mergeInto e n).kabupaten = e.kabupaten) ∧
      (e.kecamatan ≠ "" → (mergeInto e n).kecamatan = e.kecamatan) ∧
      (e.kelurahan ≠ "" → (mergeInto e n).kelurahan = e.kelurahan) ∧
      (e.no_telepon ≠ "" → (mergeInto e n).no_telepon = e.no_telepon) ∧
      (e.no_hp ≠ "" → (mergeInto e n).no_hp = e.no_hp) ∧
      (e.kewarganegaraan ≠ "" → (mergeInto e n).kewarganegaraan = e.kewarganegaraan) ∧
      (e.status_pernikahan ≠ "" → (mergeInto e n).status_pernikahan = e.status_pernikahan) ∧
      (e.pendidikan ≠ "" → (mergeInto e n).pendidikan = e.pendidikan) ∧
      (e.pekerjaan ≠ "" → (mergeInto e n).pekerjaan = e.pekerjaan) ∧
      (e.provider_visa ≠ "" → (mergeInto e n).provider_visa = e.provider_visa) ∧
      (e.no_visa ≠ "" → (mergeInto e n).no_visa = e.no_visa) ∧
      (e.tanggal_visa ≠ "" → (mergeInto e n).tanggal_visa = e.tanggal_visa) ∧
      (e.tanggal_visa_akhir ≠ "" → (mergeInto e n).tanggal_visa_akhir = e.tanggal_visa_akhir) ∧
      (e.asuransi ≠ "" → (mergeInto e n).asuransi = e.asuransi) ∧
      (e.no_polis ≠ "" → (mergeInto e n).no_polis = e.no_polis) ∧
      (e.tanggal_input_polis ≠ "" → (mergeInto e n).tanggal_input_polis = e.tanggal_input_polis) ∧
      (e.tanggal_awal_polis ≠ "" → (mergeInto e n).tanggal_awal_polis = e.tanggal_awal_polis) ∧
      (e.tanggal_akhir_polis ≠ "" → (mergeInto e n).tanggal_akhir_polis = e.tanggal_akhir_polis) ∧
      (e.no_bpjs ≠ "" → (mergeInto e n).no_bpjs = e.no_bpjs)) ∧
    fuzzy_merge_data
      [{ nama := "AHMAD DAHLAN", no_identitas := "123" },
       { nama := "AHMAD DAHLANN", alamat := "Jl. Sudirman" }] =
      [{ nama := "AHMAD DAHLANN", no_identitas := "123",
         alamat := "Jl. Sudirman" }] := by
  constructor
  · intro e n
    exact ⟨fun h => fillField_of_ne _ _ h,
      fun h => fillField_of_ne _ _ h,
      fun h => fillField_of_ne _ _ h,
      fun h => fillField_of_ne _ _ h,
      fun h => fillField_of_ne _ _ h,
      fun h => fillField_of_ne _ _ h,
      fun h => fillField_of_ne _ _ h,
      fun h => fillField_of_ne _ _ h,
      fun h => fillField_of_ne _ _ h,
      fun h => fillField_of_ne _ _ h,
      fun h => fillField_of_ne _ _ h,
      fun h => fillField_of_ne _ _ h,
      fun h => fillField_of_ne _ _ h,
      fun h => fillField_of_ne _ _ h,
      fun h => fillField_of_ne _ _ h,
      fun h => fillField_of_ne _ _ h,
      fun h => fillField_of_ne _ _ h,
      fun h => fillField_of_ne _ _ h,
      fun h => fillField_of_ne _ _ h,
      fun h => fillField_of_ne _ _ h,
      fun h => fillField_of_ne _ _ h,
      fun h => fillField_of_ne _ _ h,
      fun h => fillField_of_ne _ _ h,
      fun h => fillField_of_ne _ _ h,
      fun h => fillField_of_ne _ _ h,
      fun h => fillField_of_ne _ _ h,
      fun h => fillField_of_ne _ _ h,
      fun h => fillField_of_ne _ _ h,
      fun h => fillField_of_ne _ _ h,
      fun h => fillField_of_ne _ _ h,
      fun h => fillField_of_ne _ _ h⟩
  · decide

/-- Witness for C6: every non-name field of a fully populated record
survives a merge. -/
theorem C6_witness :
    (mergeInto allSetItem mergeProbe).title = allSetItem.title ∧
    (mergeInto allSetItem mergeProbe).nama_ayah = allSetItem.nama_ayah ∧
    (mergeInto allSetItem mergeProbe).jenis_identitas = allSetItem.jenis_identitas ∧
    (mergeInto allSetItem mergeProbe).no_identitas = allSetItem.no_identitas ∧
    (mergeInto allSetItem mergeProbe).nama_paspor = allSetItem.nama_paspor ∧
    (mergeInto allSetItem mergeProbe).no_paspor = allSetItem.no_paspor ∧
    (mergeInto allSetItem mergeProbe).tanggal_paspor = allSetItem.tanggal_paspor ∧
    (mergeInto allSetItem mergeProbe).kota_paspor = allSetItem.kota_paspor ∧
    (mergeInto allSetItem mergeProbe).tempat_lahir = allSetItem.tempat_lahir ∧
    (mergeInto allSetItem mergeProbe).tanggal_lahir = allSetItem.tanggal_lahir ∧
    (mergeInto allSetItem mergeProbe).alamat = allSetItem.alamat ∧
    (mergeInto allSetItem mergeProbe).provinsi = allSetItem.provinsi ∧
    (mergeInto allSetItem mergeProbe).kabupaten = allSetItem.kabupaten ∧
    (mergeInto allSetItem mergeProbe).kecamatan = allSetItem.kecamatan ∧
    (mergeInto allSetItem mergeProbe).kelurahan = allSetItem.kelurahan ∧
    (mergeInto allSetItem mergeProbe).no_telepon = allSetItem.no_telepon ∧
    (mergeInto allSetItem mergeProbe).no_hp = allSetItem.no_hp ∧
    (mergeInto allSetItem mergeProbe).kewarganegaraan = allSetItem.kewarganegaraan ∧
    (mergeInto allSetItem mergeProbe).status_pernikahan = allSetItem.status_pernikahan ∧
    (mergeInto allSetItem mergeProbe).pendidikan = allSetItem.pendidikan ∧
    (mergeInto allSetItem mergeProbe).pekerjaan = allSetItem.pekerjaan ∧
    (mergeInto allSetItem mergeProbe).provider_visa = allSetItem.provider_visa ∧
    (mergeInto allSetItem mergeProbe).no_visa = allSetItem.no_visa ∧
    (mergeInto allSetItem mergeProbe).tanggal_visa = allSetItem.tanggal_visa ∧
    (mergeInto allSetItem mergeProbe).tanggal_visa_akhir = allSetItem.tanggal_visa_akhir ∧
    (mergeInto allSetItem mergeProbe).asuransi = allSetItem.asuransi ∧
    (mergeInto allSetItem mergeProbe).no_polis = allSetItem.no_polis ∧
    (mergeInto allSetItem mergeProbe).tanggal_input_polis = allSetItem.tanggal_input_polis ∧
    (mergeInto allSetItem mergeProbe).tanggal_awal_polis = allSetItem.tanggal_awal_polis ∧
    (mergeInto allSetItem mergeProbe).tanggal_akhir_polis = allSetItem.tanggal_akhir_polis ∧
    (mergeInto allSetItem mergeProbe).no_bpjs = allSetItem.no_bpjs := by
  obtain ⟨h1, h2, h3, h4, h5, h6, h7, h8, h9, h10, h11, h12, h13, h14, h15, h16, h17, h18, h19, h20, h21, h22, h23, h24, h25, h26, h27, h28, h29, h30, h31⟩ := C6_merge_frame.1 allSetItem mergeProbe
  exact ⟨h1 (by decide), h2 (by decide), h3 (by decide), h4 (by decide), h5 (by decide), h6 (by decide), h7 (by decide), h8 (by decide), h9 (by decide), h10 (by decide), h11 (by decide), h12 (by decide), h13 (by decide), h14 (by decide), h15 (by decide), h16 (by decide), h17 (by decide), h18 (by decide), h19 (by decide), h20 (by decide), h21 (by decide), h22 (by decide), h23 (by decide), h24 (by decide), h25 (by decide), h26 (by decide), h27 (by decide), h28 (by decide), h29 (by decide), h30 (by decide), h31 (by decide)⟩

/-- C4: when every primary attempt fails, the dispatcher calls the primary
engine exactly `MAX_RETRIES + 1` (= 3) times, sleeping `base * attempt`
between consecutive attempts; it then calls the vision model exactly once
iff fallback is enabled and the configured engine is not `"gemini"`; and if
that call also fails (or is skipped) it returns the partial/error marker —
the model is a total function, so no input propagates an exception. -/
theorem C4_retry_fallback {α : Type} (engine : String) (enabled : Bool)
    (base : ℚ) (primary : Nat → Except String α) (gem : Except String α)
    (_heng : engine = "gemini" ∨ engine = "tesseract" ∨ engine = "hybrid")
    (hfail : ∀ i, 1 ≤ i → i ≤ MAX_RETRIES + 1 →
      ∃ e, primary i = Except.error e) :
    (processSingleImage engine enabled base primary gem).primaryCalls =
      MAX_RETRIES + 1 ∧
    (processSingleImage engine enabled base primary gem).sleeps =
      [base * 1, base * 2] ∧
    (processSingleImage engine enabled base primary gem).fallbackCalls =
      (if (enabled && engine != "gemini") = true then 1 else 0) ∧
    ((enabled && engine != "gemini") = true → ∀ g2, gem = Except.error g2 →
      (processSingleImage engine enabled base primary gem).result =
        DispatchResult.partialErr g2) ∧
    ((enabled && engine != "gemini") = false →
      ∃ e, (processSingleImage engine enabled base primary gem).result =
        DispatchResult.partialErr e) := by
  obtain ⟨e1, h1⟩ := hfail 1 (by decide) (by decide)
  obtain ⟨e2, h2⟩ := hfail 2 (by decide) (by decide)
  obtain ⟨e3, h3⟩ := hfail 3 (by decide) (by decide)
  have l1 : attemptLoop primary base 3 1 = (1, [], Except.error e3) := by
    rw [attemptLoop, h3]
  have l2 : attemptLoop primary base 2 2 =
      (2, [base * 2], Except.error e3) := by
    show attemptLoop primary base 2 (Nat.succ (Nat.succ 0)) = _
    rw [attemptLoop, h2]
    show (_ + 1, base * (2 : Nat) :: _, _) = _
    rw [show attemptLoop primary base (2 + 1) (Nat.succ 0) =
          attemptLoop primary base 3 1 from rfl, l1]
    norm_num
  have l3 : attemptLoop primary base 1 (MAX_RETRIES + 1) =
      (3, [base * 1, base * 2], Except.error e3) := by
    show attemptLoop primary base 1 (Nat.succ (Nat.succ 1)) = _
    rw [attemptLoop, h1]
    show (_ + 1, base * (1 : Nat) :: _, _) = _
    rw [show attemptLoop primary base (1 + 1) (Nat.succ 1) =
          attemptLoop primary base 2 2 from rfl, l2]
    norm_num
  have hout : processSingleImage engine enabled base primary gem =
      (if (enabled && engine != "gemini") = true then
        (match gem with
         | Except.ok v =>
           ⟨3, [base * 1, base * 2], 1, DispatchResult.ok v⟩
         | Except.error g =>
           ⟨3, [base * 1, base * 2], 1, DispatchResult.partialErr g⟩)
       else ⟨3, [base * 1, base * 2], 0, DispatchResult.partialErr e3⟩) := by
    rw [processSingleImage.eq_def, l3]
  refine ⟨?_, ?_, ?_, ?_, ?_⟩
  · rw [hout]
    split
    · cases gem <;> rfl
    · rfl
  · rw [hout]
    split
    · cases gem <;> rfl
    · rfl
  · rw [hout]
    by_cases hb : (enabled && engine != "gemini") = true
    · rw [if_pos hb, if_pos hb]
      cases gem <;> rfl
    · rw [if_neg hb, if_neg hb]
  · intro hb g2 hg
    rw [hout, if_pos hb, hg]
  · intro hb
    refine ⟨e3, ?_⟩
    rw [hout, if_neg (by rw [hb]; exact Bool.false_ne_true)]

/-- Witness for C4 at concrete failing oracles. -/
theorem C4_witness :
    (processSingleImage "tesseract" true 1
      (fun _ => (Except.error "p" : Except String Unit))
      (Except.error "g")).primaryCalls = MAX_RETRIES + 1 ∧
    (processSingleImage "tesseract" true 1
      (fun _ => (Except.error "p" : Except String Unit))
      (Except.error "g")).sleeps = [(1 : ℚ) * 1, 1 * 2] ∧
    (processSingleImage "tesseract" true 1
      (fun _ => (Except.error "p" : Except String Unit))
      (Except.error "g")).result = DispatchResult.partialErr "g" := by
  have h := C4_retry_fallback "tesseract" true 1
    (fun _ => (Except.error "p" : Except String Unit)) (Except.error "g")
    (Or.inr (Or.inl rfl)) (fun i _ _ => ⟨"p", rfl⟩)
  exact ⟨h.1, h.2.1, h.2.2.2.1 (by decide) "g" rfl⟩

set_option maxRecDepth 8000 in
/-- C2 counterexample: a non-partial single-image result failing the
useful-data predicate (only a visa date set) *is* stored in the cache and
*is* forwarded — it even survives sanitization and reaches the fuzzy-merge
stage as one record. -/
theorem C2_counterexample :
    has_useful_data uselessVisaDoc = false ∧
    (processOneImage none uselessVisaDoc).cacheStored =
      some [doc_data_to_item uselessVisaDoc] ∧
    (processOneImage none uselessVisaDoc).items =
      [doc_data_to_item uselessVisaDoc] ∧
    sanitize (processOneImage none uselessVisaDoc).items ≠ [] ∧
    (run_pipeline_records
      (processOneImage none uselessVisaDoc).items).length = 1 := by decide

/-- C2 (amended): the useful-data gate holds for PDF pages — every item a
fresh PDF unit forwards or caches comes from a page passing the predicate —
while for single images only the partial/error marker prevents caching and
forwarding. -/
theorem C2_useful_data_gate_amended :
    (∀ pages : List GDoc, ∀ it ∈ (processOnePdf none pages).items,
      ∃ d ∈ pages, has_useful_data d = true ∧ it = doc_data_to_item d) ∧
    (∀ pages : List GDoc, ∀ l,
      (processOnePdf none pages).cacheStored = some l →
      ∀ it ∈ l, ∃ d ∈ pages, has_useful_data d = true ∧
        it = doc_data_to_item d) ∧
    (∀ ocr : GDoc, ocr.partialFlag = true →
      (processOneImage none ocr).cacheStored = none ∧
      (processOneImage none ocr).items = []) := by
  have hmem : ∀ pages : List GDoc,
      ∀ it ∈ (pages.filter has_useful_data).map doc_data_to_item,
      ∃ d ∈ pages, has_useful_data d = true ∧ it = doc_data_to_item d := by
    intro pages it hit
    obtain ⟨d, hd, rfl⟩ := List.mem_map.1 hit
    obtain ⟨hdp, hdu⟩ := List.mem_filter.1 hd
    exact ⟨d, hdp, hdu, rfl⟩
  refine ⟨?_, ?_, ?_⟩
  · intro pages it hit
    exact hmem pages it hit
  · intro pages l hl it hit
    rw [processOnePdf] at hl
    dsimp only at hl
    split at hl
    · cases hl
    · injection hl with hl2
      subst hl2
      exact hmem pages it hit
  · intro ocr hp
    simp [processOneImage, hp]

/-- Witness for C2 at a two-page PDF and a partial image result. -/
theorem C2_witness :
    (∃ d ∈ [partialDoc, usefulDoc], has_useful_data d = true ∧
      doc_data_to_item usefulDoc = doc_data_to_item d) ∧
    (processOneImage none partialDoc).cacheStored = none := by
  constructor
  · exact C2_useful_data_gate_amended.1 [partialDoc, usefulDoc]
      (doc_data_to_item usefulDoc) (by decide)
  · exact (C2_useful_data_gate_amended.2.2 partialDoc rfl).1

set_option maxRecDepth 8000 in
/-- C9 counterexample: a KTP record with a 15-digit identity number whose
passport field is the adversarial text `16 digit` yields *two* warnings
whose message contains `16 digit` (the NIK warning and the passport-format
warning quoting the raw value), refuting the exactly-one reading. -/
theorem C9_counterexample :
    pyUpperS ktp15Row.jenis_identitas = "KTP" ∧
    (ktp15Row.no_identitas.toList.filter Char.isDigit).length = 15 ∧
    ((validate_row ktp15Row).filter
      (fun w => strContains w.message "16 digit")).length = 2 := by decide

/-- C9 (amended): a KTP record with a 15-digit identity number yields
exactly one warning *for the identity-number field*, and its message
contains `16 digit`; every record with an empty or whitespace-only name
gets a name warning.  (`validate_row` is a total function returning only
warnings — it never blocks or raises.) -/
theorem C9_validator_amended (r : ExtractedDataItem) :
    (pyUpperS r.jenis_identitas = "KTP" →
      (r.no_identitas.toList.filter Char.isDigit).length = 15 →
      (validate_row r).filter (fun w => w.field == "no_identitas") =
        [⟨"no_identitas", "NIK harus 16 digit (ditemukan 15 digit)"⟩]) ∧
    strContains "NIK harus 16 digit (ditemukan 15 digit)" "16 digit" = true ∧
    (pyStrip r.nama.toList = [] →
      (⟨"nama", "Nama tidak boleh kosong"⟩ : ValidationWarning) ∈
        validate_row r) := by
  refine ⟨?_, by decide, ?_⟩
  · intro h1 h2
    have hne : r.no_identitas ≠ "" := by
      intro he
      rw [he] at h2
      simp at h2
    have hnik : validate_nik r.no_identitas =
        some "NIK harus 16 digit (ditemukan 15 digit)" := by
      rw [validate_nik, if_neg hne, h2]
      rw [if_pos (by norm_num)]
      decide
    rw [validate_row, if_pos (Or.inl h1), hnik]
    simp only [List.filter_append]
    rw [filter_optWarn_ne "no_paspor" "no_identitas" _ (by decide),
        filter_optWarn_ne "no_visa" "no_identitas" _ (by decide),
        filter_optWarn_ne "tanggal_lahir" "no_identitas" _ (by decide),
        filter_optWarn_ne "tanggal_paspor" "no_identitas" _ (by decide),
        filter_optWarn_ne "tanggal_visa" "no_identitas" _ (by decide),
        filter_optWarn_ne "tanggal_visa_akhir" "no_identitas" _ (by decide),
        filter_optWarn_ne "tanggal_input_polis" "no_identitas" _ (by decide),
        filter_optWarn_ne "tanggal_awal_polis" "no_identitas" _ (by decide),
        filter_optWarn_ne "tanggal_akhir_polis" "no_identitas" _ (by decide),
        filter_optWarn_ne "kewarganegaraan" "no_identitas" _ (by decide),
        filter_nama_seg "no_identitas" _ (by decide)]
    simp [optWarn]
  · intro h
    rw [validate_row, if_pos h]
    simp [List.mem_append]

/-- Witness for C9 at a plain 15-digit KTP record with an empty name. -/
theorem C9_witness :
    (validate_row ktpPlainRow).filter (fun w => w.field == "no_identitas") =
      [⟨"no_identitas", "NIK harus 16 digit (ditemukan 15 digit)"⟩] ∧
    (⟨"nama", "Nama tidak boleh kosong"⟩ : ValidationWarning) ∈
      validate_row ktpPlainRow := by
  have h := C9_validator_amended ktpPlainRow
  exact ⟨h.1 (by decide) (by decide), h.2.2 (by decide)⟩

end Jamaah
